import Mathlib

/-!
Verification of the geospatial/profile backend (gigglemap-backend).

The repository is a JS/Express/Prisma/PostGIS service.  This file shallowly
embeds the parts of the code the claims touch:

* the place service (`src/services/place.service.js`): place creation and the
  nearby/radius SELECT;
* the user service (`user.service.js`): nearby users, profile-coordinate
  update, engagement-stat update, deletion, login;
* the controllers wired to them (`place.controller.js`, `user.controller.js`):
  status codes, defaults, error bodies.

Database statements are embedded as pure functions over an explicit store
(a list of rows).  The PostGIS geodesic distance (`ST_Distance` on
`geography`) is external to the repository, so the query embeddings are
parametric in the engine's distance function `d`; `ST_DWithin(a, b, r)` is
embedded as `d a b ≤ r` (non-strict, per PostGIS documentation).  A separate
real-valued model of the point-to-point distance itself, built from the
specification, lives further down.
-/

namespace GiggleMap

/-- A geographic coordinate pair in degrees.  The store's double-precision
values are modelled as rationals so that the embeddings stay executable. -/
structure GeoPoint where
  lat : ℚ
  lng : ℚ
deriving DecidableEq, Repr

/-- A row of the `"Place"` table (prisma/migrations/manual-init/migration.sql):
`location GEOGRAPHY(POINT,4326) NOT NULL`, so every stored place carries a
coordinate. -/
structure PlaceRow where
  id : Nat
  name : String
  description : Option String
  location : GeoPoint
deriving DecidableEq, Repr

/-- A row of the `"User"` table, restricted to the fields the claims touch:
identity, credentials, the nullable geography column and the three engagement
counters (DB integers, created with default 0). -/
structure UserRow where
  id : Nat
  username : String
  email : String
  password : String
  coordinates : Option GeoPoint
  storyCount : Int
  likeCount : Int
  commentCount : Int
deriving DecidableEq, Repr

/-- A concrete stand-in for the engine's distance function, used only to run
the parametric query embeddings on concrete inputs.  It shares with the
geodesic distance the properties those concrete scenarios rely on:
non-negativity, and value `0` at coincident coordinates with a positive value
at distinct ones. -/
def discreteDist (a b : GeoPoint) : ℚ := if a = b then 0 else 1

/-- An HTTP outcome as the controllers produce it: a status code and the
message of the JSON body. -/
structure HttpResult where
  status : Nat
  body : String
deriving DecidableEq, Repr

/-- A coordinate value as it arrives in a request body: a number, or absent
(`undefined`).  Template-literal interpolation of an absent value puts the
text `undefined` into the WKT string handed to the store. -/
inductive JsNum where
  | num (q : ℚ)
  | undef
deriving DecidableEq, Repr

/-- The store's `ST_GeographyFromText` / `::geography` conversion applied to
the `POINT(lng lat)` WKT the services build by template interpolation: it
yields a point for numeric in-range coordinates, and rejects the statement
otherwise (the `geography` type enforces lat ∈ [-90, 90] and
lng ∈ [-180, 180], and the text `undefined` is unparseable WKT). -/
def geographyFromPoint : JsNum → JsNum → Option GeoPoint
  | JsNum.num la, JsNum.num ln =>
      if -90 ≤ la ∧ la ≤ 90 ∧ -180 ≤ ln ∧ ln ≤ 180 then some ⟨la, ln⟩ else none
  | _, _ => none

/-- `createPlaceService` (place.service.js lines 4-11): builds the WKT string
from whatever arrived in the body and unconditionally runs the INSERT — there
is no validation of any kind before the query.  The first component records
that the store statement was executed; the second is the store outcome (the
new store contents, or the store's rejection). -/
def createPlaceService (store : List PlaceRow) (name : String)
    (description : Option String) (latitude longitude : JsNum) :
    Bool × Except String (List PlaceRow) :=
  (true,
    match geographyFromPoint latitude longitude with
    | some p =>
        Except.ok (store ++ [{ id := store.length + 1, name := name,
                               description := description, location := p }])
    | none => Except.error "parse error in ST_GeographyFromText")

/-- `createPlace` controller (POST /places, place.controller.js): answers 201
on service success and 500 with body `Failed to create place` on any service
rejection.  There is no 400 path and no `MissingCoordinate` or
`InvalidCoordinate` error anywhere in the route. -/
def createPlace (store : List PlaceRow) (name : String)
    (description : Option String) (latitude longitude : JsNum) :
    Bool × List PlaceRow × HttpResult :=
  match createPlaceService store name description latitude longitude with
  | (q, Except.ok s) => (q, s, ⟨201, "Place created successfully"⟩)
  | (q, Except.error _) => (q, store, ⟨500, "Failed to create place"⟩)

/-- `findNearbyPlacesService` (place.service.js lines 29-39): one SELECT with
`WHERE ST_DWithin(location, center, radius)` and neither ORDER BY nor LIMIT;
rows come back in stored order, each place whose geodesic distance to the
center is at most the radius. -/
def findNearbyPlacesService (d : GeoPoint → GeoPoint → ℚ)
    (store : List PlaceRow) (lat lng radius : ℚ) : List PlaceRow :=
  store.filter fun p => decide (d p.location ⟨lat, lng⟩ ≤ radius)

/-- The comparison used to embed `ORDER BY distance ASC` on the rows of the
nearby-users SELECT (each row paired with its computed distance column). -/
def byDistance (a b : UserRow × ℚ) : Prop := a.2 ≤ b.2

instance : DecidableRel byDistance := fun a b => inferInstanceAs (Decidable (a.2 ≤ b.2))

instance : IsTotal (UserRow × ℚ) byDistance := ⟨fun a b => le_total a.2 b.2⟩

instance : IsTrans (UserRow × ℚ) byDistance := ⟨fun _ _ _ h h' => le_trans h h'⟩

/-- `getNearbyUsersService` (user.service.js lines 241-267): SELECT of the
users with a non-NULL coordinate within the radius, each annotated with its
distance, `ORDER BY distance ASC` (embedded as a stable sort) and
`LIMIT ${limit}` — the limit is used exactly as supplied. -/
def getNearbyUsersService (d : GeoPoint → GeoPoint → ℚ) (store : List UserRow)
    (latitude longitude radius : ℚ) (limit : Nat) : List (UserRow × ℚ) :=
  ((store.filterMap fun u =>
      match u.coordinates with
      | some p =>
          if d p ⟨latitude, longitude⟩ ≤ radius then some (u, d p ⟨latitude, longitude⟩)
          else none
      | none => none).insertionSort byDistance).take limit

/-- Query-string parameters of GET /users/nearby, URL-decoded; a missing
parameter is `none`, a present one is modelled as an already-parsed number. -/
structure NearbyUsersQuery where
  lat : Option ℚ
  lng : Option ℚ
  radius : Option ℚ
  limit : Option Nat
deriving DecidableEq, Repr

/-- Response of GET /users/nearby: a 400 with an error body, or a 200 whose
body carries the center, the radius, the count and the user list. -/
inductive NearbyUsersResult where
  | badRequest (error : String)
  | ok (centerLat centerLng radius : ℚ) (count : Nat) (users : List (UserRow × ℚ))
deriving DecidableEq, Repr

/-- The `count` field of the response body (0 for the error response, which
has none). -/
def countOf : NearbyUsersResult → Nat
  | NearbyUsersResult.badRequest _ => 0
  | NearbyUsersResult.ok _ _ _ c _ => c

/-- `getNearbyUsers` controller (GET /users/nearby, user.controller.js lines
237-273): requires lat and lng, defaults the radius to 10000 and the limit to
50, and passes the parsed limit straight to the service — no maximum is
applied to it. -/
def getNearbyUsers (d : GeoPoint → GeoPoint → ℚ) (store : List UserRow)
    (q : NearbyUsersQuery) : NearbyUsersResult :=
  match q.lat, q.lng with
  | some la, some ln =>
      let radius := q.radius.getD 10000
      let users := getNearbyUsersService d store la ln radius (q.limit.getD 50)
      NearbyUsersResult.ok la ln radius users.length users
  | _, _ => NearbyUsersResult.badRequest "Latitude and longitude are required"

/-- `updateUserProfileService` (user.service.js lines 147-192), restricted to
the coordinate part of `updateData`: the coordinate UPDATE runs only when
both latitude and longitude are present (`!== undefined`); a partial pair is
silently skipped — nothing is written and no error is raised.  The service
itself performs no range check; the values go straight into the WKT and the
store's geography conversion decides. -/
def updateUserProfileService (store : List UserRow) (userId : Nat)
    (latitude longitude : Option ℚ) : Except String (List UserRow) :=
  match latitude, longitude with
  | some la, some ln =>
      match geographyFromPoint (JsNum.num la) (JsNum.num ln) with
      | some p =>
          Except.ok (store.map fun u =>
            if u.id = userId then { u with coordinates := some p } else u)
      | none => Except.error "parse error in ST_GeographyFromText"
  | _, _ => Except.ok store

/-- `updateUserProfile` controller (PUT /users/:id): 200 on service success,
500 with body `Failed to update profile` on any service rejection; again no
400 path for coordinate problems. -/
def updateUserProfile (store : List UserRow) (userId : Nat)
    (latitude longitude : Option ℚ) : List UserRow × HttpResult :=
  match updateUserProfileService store userId latitude longitude with
  | Except.ok s => (s, ⟨200, "Profile updated successfully"⟩)
  | Except.error _ => (store, ⟨500, "Failed to update profile"⟩)

/-- The stat-type whitelist of `updateUserStatsService`. -/
def validStats : List String := ["storyCount", "likeCount", "commentCount"]

/-- The counter a stat type names (0 for a string outside the whitelist). -/
def statOf (statType : String) (u : UserRow) : Int :=
  if statType = "storyCount" then u.storyCount
  else if statType = "likeCount" then u.likeCount
  else if statType = "commentCount" then u.commentCount
  else 0

/-- The `GREATEST(0, counter + increment)` row update of one stat column. -/
def applyStat (statType : String) (inc : Int) (u : UserRow) : UserRow :=
  if statType = "storyCount" then { u with storyCount := max 0 (u.storyCount + inc) }
  else if statType = "likeCount" then { u with likeCount := max 0 (u.likeCount + inc) }
  else if statType = "commentCount" then { u with commentCount := max 0 (u.commentCount + inc) }
  else u

/-- `updateUserStatsService` (user.service.js lines 276-311): rejects a stat
type outside the whitelist, otherwise runs the clamped UPDATE on every row
matching the id. -/
def updateUserStatsService (store : List UserRow) (userId : Nat)
    (statType : String) (inc : Int) : Except String (List UserRow) :=
  if statType ∈ validStats then
    Except.ok (store.map fun u => if u.id = userId then applyStat statType inc u else u)
  else Except.error ("Invalid stat type: " ++ statType)

/-- One stat update (id, stat type, increment) as a store transformer; a
rejected update leaves the store unchanged, as in the service. -/
def statStep (store : List UserRow) (op : Nat × String × Int) : List UserRow :=
  match updateUserStatsService store op.1 op.2.1 op.2.2 with
  | Except.ok s => s
  | Except.error _ => store

/-- A sequence of stat updates applied in order. -/
def runStatUpdates (store : List UserRow) (ops : List (Nat × String × Int)) :
    List UserRow :=
  ops.foldl statStep store

/-- All three engagement counters of a row are non-negative. -/
def nonnegStats (u : UserRow) : Prop :=
  0 ≤ u.storyCount ∧ 0 ≤ u.likeCount ∧ 0 ≤ u.commentCount

/-- `deleteUserService` (user.service.js lines 318-328): `prisma.user.delete`
rejects with error P2025 when no row matches the id, and deletes the matching
row otherwise. -/
def deleteUserService (store : List UserRow) (userId : Nat) :
    Except String (List UserRow) :=
  if store.any fun u => decide (u.id = userId) then
    Except.ok (store.filter fun u => decide (u.id ≠ userId))
  else Except.error "P2025: record to delete does not exist"

/-- `deleteUser` controller (DELETE /users/:id, user.controller.js lines
348-368): the profile pre-fetch only serves avatar cleanup; the delete
service is then called unconditionally, and any rejection is answered 500
with body `Failed to delete user account`. -/
def deleteUser (store : List UserRow) (userId : Nat) : List UserRow × HttpResult :=
  match deleteUserService store userId with
  | Except.ok s => (s, ⟨200, "User account deleted successfully"⟩)
  | Except.error _ => (store, ⟨500, "Failed to delete user account"⟩)

/-- The public payload of a successful login (the token is opaque here). -/
structure LoginOk where
  userId : Nat
  username : String
deriving DecidableEq, Repr

/-- `loginUserService` (user.service.js lines 74-110): finds the first user
whose email or username equals the supplied identifier; the no-such-user case
and the password-mismatch case reject with the same message.  The bcrypt
comparison is external and passed in as `checkPw password storedHash`. -/
def loginUserService (checkPw : String → String → Bool) (store : List UserRow)
    (emailOrUsername password : String) : Except String LoginOk :=
  match store.find? fun u =>
      decide (u.email = emailOrUsername) || decide (u.username = emailOrUsername) with
  | none => Except.error "Invalid credentials"
  | some u =>
      if checkPw password u.password then Except.ok ⟨u.id, u.username⟩
      else Except.error "Invalid credentials"

/-- Whether an `Except` is a success. -/
def isOkB {ε α : Type} : Except ε α → Bool
  | Except.ok _ => true
  | Except.error _ => false

/-- `loginUser` controller (POST /users/login, user.controller.js lines
73-93): 400 when either field is missing/empty, 200 on success, 401 with the
fixed body `Invalid email/username or password` exactly when the service
rejected with `Invalid credentials`, 500 otherwise. -/
def loginUser (checkPw : String → String → Bool) (store : List UserRow)
    (emailOrUsername password : String) : HttpResult :=
  if emailOrUsername = "" ∨ password = "" then
    ⟨400, "Email/username and password are required"⟩
  else
    match loginUserService checkPw store emailOrUsername password with
    | Except.ok _ => ⟨200, "Login successful"⟩
    | Except.error e =>
        if e = "Invalid credentials" then ⟨401, "Invalid email/username or password"⟩
        else ⟨500, "Login failed"⟩

/-!
The point-to-point distance itself.  `getDistanceService`
(place.service.js lines 41-49) answers GET /places/route/distance with one
SELECT of `ST_Distance(from::geography, to::geography)`; the distance
computation lives entirely in the spatial engine, outside the repository.
The model below therefore follows the specification.
-/

/-- A latitude/longitude pair in degrees over the reals, for the distance
model. -/
structure RPoint where
  lat : ℝ
  lng : ℝ

/-- Degrees to radians. -/
noncomputable def rad (x : ℝ) : ℝ := x * Real.pi / 180

/-- The x component of the unit direction vector of a point on the sphere. -/
noncomputable def vx (p : RPoint) : ℝ := Real.cos (rad p.lat) * Real.cos (rad p.lng)

/-- The y component of the unit direction vector of a point on the sphere. -/
noncomputable def vy (p : RPoint) : ℝ := Real.cos (rad p.lat) * Real.sin (rad p.lng)

/-- The z component of the unit direction vector of a point on the sphere. -/
noncomputable def vz (p : RPoint) : ℝ := Real.sin (rad p.lat)

/-- The inner product of the unit direction vectors of two points. -/
noncomputable def dot (p q : RPoint) : ℝ := vx p * vx q + vy p * vy q + vz p * vz q

/-- The mean Earth radius, in meters. -/
noncomputable def earthRadius : ℝ := 6371000

/-- Modelled from the spec: the geodesic point-to-point distance
(`distanceBetween(a, b)`, computed in the store by `ST_Distance` on
`geography`, which is not part of the repository), as the great-circle
distance on a spherical Earth — the central angle between the two unit
direction vectors scaled by the Earth radius.  The ellipsoidal refinement
the engine applies does not change the algebraic properties claimed of the
distance, and in particular agrees with the sphere on which coordinate pairs
denote the same point of the Earth (the poles, the antimeridian). -/
noncomputable def distanceBetween (p q : RPoint) : ℝ :=
  earthRadius * Real.arccos (dot p q)

/-- A valid coordinate pair: latitude in [-90, 90], longitude in
[-180, 180]. -/
def validR (p : RPoint) : Prop :=
  -90 ≤ p.lat ∧ p.lat ≤ 90 ∧ -180 ≤ p.lng ∧ p.lng ≤ 180

/-!
Concrete scenario data used by the closed statements below.
-/

/-- A stored user sitting exactly at the origin. -/
def demoUser (i : Nat) : UserRow :=
  { id := i, username := "", email := "", password := "",
    coordinates := some ⟨0, 0⟩, storyCount := 0, likeCount := 0, commentCount := 0 }

/-- A stored place one degree of longitude away from the origin. -/
def farPlace : PlaceRow := { id := 1, name := "far", description := none, location := ⟨0, 1⟩ }

/-- A stored place exactly at the origin. -/
def nearPlace : PlaceRow := { id := 2, name := "near", description := none, location := ⟨0, 0⟩ }

/-- A registered user with known credentials and no coordinate. -/
def authUser : UserRow :=
  { id := 3, username := "alice", email := "a@b", password := "hash",
    coordinates := none, storyCount := 0, likeCount := 0, commentCount := 0 }

/-!
Helper lemmas: the spherical geometry of `distanceBetween`.
-/

/-- Cauchy–Schwarz in three coordinates, via the Lagrange identity. -/
theorem cs3 (x1 y1 z1 x2 y2 z2 : ℝ) :
    (x1*x2 + y1*y2 + z1*z2)^2 ≤ (x1^2+y1^2+z1^2) * (x2^2+y2^2+z2^2) := by
  nlinarith [sq_nonneg (x1*y2 - y1*x2), sq_nonneg (x1*z2 - z1*x2), sq_nonneg (y1*z2 - z1*y2)]

/-- The direction vector of every point is a unit vector. -/
theorem norm_sq_one (p : RPoint) : (vx p)^2 + (vy p)^2 + (vz p)^2 = 1 := by
  unfold vx vy vz
  nlinarith [Real.sin_sq_add_cos_sq (rad p.lat), Real.sin_sq_add_cos_sq (rad p.lng)]

theorem dot_self (p : RPoint) : dot p p = 1 := by
  have h := norm_sq_one p
  unfold dot
  nlinarith [h]

theorem dot_comm (p q : RPoint) : dot p q = dot q p := by
  unfold dot; ring

theorem dot_sq_le_one (p q : RPoint) : (dot p q)^2 ≤ 1 := by
  have h := cs3 (vx p) (vy p) (vz p) (vx q) (vy q) (vz q)
  rw [norm_sq_one p, norm_sq_one q] at h
  simpa [dot] using h

theorem neg_one_le_dot (p q : RPoint) : -1 ≤ dot p q := by
  nlinarith [dot_sq_le_one p q]

theorem dot_le_one (p q : RPoint) : dot p q ≤ 1 := by
  nlinarith [dot_sq_le_one p q]

/-- Cauchy–Schwarz applied to the components of two unit vectors orthogonal
to a third unit vector. -/
theorem gram3 (A B C D E F G H I : ℝ) (hv : D^2 + E^2 + F^2 = 1) :
    ((A*G + B*H + C*I) - (A*D + B*E + C*F) * (D*G + E*H + F*I))^2
      ≤ ((A^2+B^2+C^2) - (A*D+B*E+C*F)^2) * ((G^2+H^2+I^2) - (D*G+E*H+F*I)^2) := by
  have h := cs3 (A - (A*D+B*E+C*F)*D) (B - (A*D+B*E+C*F)*E) (C - (A*D+B*E+C*F)*F)
                (G - (D*G+E*H+F*I)*D) (H - (D*G+E*H+F*I)*E) (I - (D*G+E*H+F*I)*F)
  have e1 : (A - (A*D+B*E+C*F)*D) * (G - (D*G+E*H+F*I)*D)
      + (B - (A*D+B*E+C*F)*E) * (H - (D*G+E*H+F*I)*E)
      + (C - (A*D+B*E+C*F)*F) * (I - (D*G+E*H+F*I)*F)
      = (A*G + B*H + C*I) - (A*D + B*E + C*F) * (D*G + E*H + F*I) := by
    linear_combination ((A*D+B*E+C*F) * (D*G+E*H+F*I)) * hv
  have e2 : (A - (A*D+B*E+C*F)*D)^2 + (B - (A*D+B*E+C*F)*E)^2 + (C - (A*D+B*E+C*F)*F)^2
      = (A^2+B^2+C^2) - (A*D+B*E+C*F)^2 := by
    linear_combination ((A*D+B*E+C*F)^2) * hv
  have e3 : (G - (D*G+E*H+F*I)*D)^2 + (H - (D*G+E*H+F*I)*E)^2 + (I - (D*G+E*H+F*I)*F)^2
      = (G^2+H^2+I^2) - (D*G+E*H+F*I)^2 := by
    linear_combination ((D*G+E*H+F*I)^2) * hv
  rw [e1, e2, e3] at h
  exact h

/-- The spherical law-of-cosines bound behind the triangle inequality. -/
theorem dot_key_sq (p q r : RPoint) :
    (dot p r - dot p q * dot q r)^2 ≤ (1 - (dot p q)^2) * (1 - (dot q r)^2) := by
  have h := gram3 (vx p) (vy p) (vz p) (vx q) (vy q) (vz q) (vx r) (vy r) (vz r)
    (norm_sq_one q)
  rw [norm_sq_one p, norm_sq_one r] at h
  simpa [dot] using h

theorem dot_lower (p q r : RPoint) :
    dot p q * dot q r - Real.sqrt (1 - (dot p q)^2) * Real.sqrt (1 - (dot q r)^2)
      ≤ dot p r := by
  have hk := dot_key_sq p q r
  have h1 : (0:ℝ) ≤ 1 - (dot p q)^2 := by nlinarith [dot_sq_le_one p q]
  have habs : |dot p r - dot p q * dot q r|
      ≤ Real.sqrt (1 - (dot p q)^2) * Real.sqrt (1 - (dot q r)^2) := by
    rw [← Real.sqrt_mul h1, ← Real.sqrt_sq_eq_abs]
    exact Real.sqrt_le_sqrt hk
  linarith [neg_abs_le (dot p r - dot p q * dot q r)]

theorem arccos_antitone {x y : ℝ} (h : x ≤ y) : Real.arccos y ≤ Real.arccos x := by
  rw [Real.arccos_eq_pi_div_two_sub_arcsin, Real.arccos_eq_pi_div_two_sub_arcsin]
  have := Real.monotone_arcsin h
  linarith

/-- The triangle inequality for the central angle between unit direction
vectors. -/
theorem arccos_dot_triangle (p q r : RPoint) :
    Real.arccos (dot p r) ≤ Real.arccos (dot p q) + Real.arccos (dot q r) := by
  by_cases hpi : Real.pi ≤ Real.arccos (dot p q) + Real.arccos (dot q r)
  · exact le_trans (Real.arccos_le_pi _) hpi
  · push_neg at hpi
    have ha0 := Real.arccos_nonneg (dot p q)
    have hb0 := Real.arccos_nonneg (dot q r)
    have hcos : Real.cos (Real.arccos (dot p q) + Real.arccos (dot q r)) ≤ dot p r := by
      rw [Real.cos_add,
        Real.cos_arccos (neg_one_le_dot p q) (dot_le_one p q),
        Real.cos_arccos (neg_one_le_dot q r) (dot_le_one q r),
        Real.sin_arccos, Real.sin_arccos]
      exact dot_lower p q r
    have h := arccos_antitone hcos
    rwa [Real.arccos_cos (by linarith) (le_of_lt hpi)] at h

theorem rad_ninety : rad 90 = Real.pi / 2 := by unfold rad; ring

/-- At latitude 90 every longitude denotes the same point, the north pole. -/
theorem pole_vec (l : ℝ) :
    vx ⟨90, l⟩ = 0 ∧ vy ⟨90, l⟩ = 0 ∧ vz ⟨90, l⟩ = 1 := by
  refine ⟨?_, ?_, ?_⟩ <;>
    simp [vx, vy, vz, rad_ninety, Real.cos_pi_div_two, Real.sin_pi_div_two]

/-!
Helper lemmas: the nearby-users query.
-/

/-- Anatomy of a row of the nearby-users result: it is a stored user, it has
a coordinate, and its distance column is the engine distance of that
coordinate to the center, which the WHERE clause bounded by the radius. -/
theorem mem_nearby_users {d : GeoPoint → GeoPoint → ℚ} {store : List UserRow}
    {la ln radius : ℚ} {lim : Nat} {x : UserRow × ℚ}
    (hx : x ∈ getNearbyUsersService d store la ln radius lim) :
    x.1 ∈ store ∧ ∃ p, x.1.coordinates = some p ∧ x.2 = d p ⟨la, ln⟩ ∧ x.2 ≤ radius := by
  unfold getNearbyUsersService at hx
  have hx2 := (List.mem_insertionSort byDistance).mp (List.mem_of_mem_take hx)
  obtain ⟨u, hu, hf⟩ := List.mem_filterMap.mp hx2
  cases hc : u.coordinates with
  | none => rw [hc] at hf; simp at hf
  | some p =>
    rw [hc] at hf
    dsimp only at hf
    by_cases hr : d p ⟨la, ln⟩ ≤ radius
    · rw [if_pos hr] at hf
      cases hf
      exact ⟨hu, p, hc, rfl, hr⟩
    · rw [if_neg hr] at hf
      simp at hf

/-- The login service can only reject with the one fixed message. -/
theorem login_error_msg (checkPw : String → String → Bool) (store : List UserRow)
    (emailOrUsername password : String)
    (h : isOkB (loginUserService checkPw store emailOrUsername password) = false) :
    loginUserService checkPw store emailOrUsername password =
      Except.error "Invalid credentials" := by
  unfold loginUserService at h ⊢
  cases hf : store.find? fun u =>
      decide (u.email = emailOrUsername) || decide (u.username = emailOrUsername) with
  | none => rfl
  | some u =>
    rw [hf] at h
    dsimp only at h ⊢
    by_cases hc : checkPw password u.password = true
    · rw [if_pos hc] at h; simp [isOkB] at h
    · rw [if_neg hc]

/-!
Helper lemmas: coordinate parsing and the stat updates.
-/

theorem geographyFromPoint_undef_left (ln : JsNum) :
    geographyFromPoint JsNum.undef ln = none := by
  cases ln <;> rfl

theorem geographyFromPoint_undef_right (la : JsNum) :
    geographyFromPoint la JsNum.undef = none := by
  cases la <;> rfl

/-- The clamped update keeps every counter non-negative. -/
theorem nonneg_applyStat (statType : String) (inc : Int) (u : UserRow)
    (h : nonnegStats u) : nonnegStats (applyStat statType inc u) := by
  unfold applyStat nonnegStats at *
  split_ifs <;>
    exact ⟨by simp [le_max_left, h.1], by simp [le_max_left, h.2.1],
           by simp [le_max_left, h.2.2]⟩

/-- One run of the stat service keeps every counter of every row
non-negative. -/
theorem nonneg_statStep (store : List UserRow) (op : Nat × String × Int)
    (h : ∀ u ∈ store, nonnegStats u) : ∀ u ∈ statStep store op, nonnegStats u := by
  unfold statStep updateUserStatsService
  split_ifs with hts
  · intro u hu
    dsimp only at hu
    obtain ⟨v, hv, he⟩ := List.mem_map.mp hu
    by_cases hid : v.id = op.1
    · rw [if_pos hid] at he
      exact he ▸ nonneg_applyStat _ _ _ (h v hv)
    · rw [if_neg hid] at he
      exact he ▸ h v hv
  · exact h

theorem nonneg_runStatUpdates (ops : List (Nat × String × Int)) :
    ∀ store : List UserRow, (∀ u ∈ store, nonnegStats u) →
      ∀ u ∈ runStatUpdates store ops, nonnegStats u := by
  induction ops with
  | nil => intro store h; simpa [runStatUpdates] using h
  | cons op rest ih =>
    intro store h
    exact ih (statStep store op) (nonneg_statStep store op h)

/-!
The claims.
-/

/-- Claim C1 counterexample.  The claim states that every nearby search
returns its rows sorted ascending by distance; the places SELECT of
`findNearbyPlacesService` has no ORDER BY, so with a farther place stored
before a nearer one the rows come back in stored order, not ascending:
with the center at the origin, `farPlace` (distance 1) precedes `nearPlace`
(distance 0) in the result. -/
theorem claim1_counterexample :
    ¬ List.Pairwise
        (fun a b : PlaceRow =>
          discreteDist a.location ⟨0, 0⟩ ≤ discreteDist b.location ⟨0, 0⟩)
        (findNearbyPlacesService discreteDist [farPlace, nearPlace] 0 0 10) := by
  decide

/-- Claim C1 (amended): for every engine distance function `d`, the
nearby-users search returns only stored users with a coordinate within the
radius, each annotated with the distance of that coordinate to the center,
sorted ascending by distance, and at most `limit` of them; the nearby-places
search returns exactly the stored places within the radius, in stored order,
with no limit applied. -/
theorem claim1_theorem (d : GeoPoint → GeoPoint → ℚ) (userStore : List UserRow)
    (placeStore : List PlaceRow) (lat lng radius : ℚ) (limit : Nat)
    (x : UserRow × ℚ) (pl : PlaceRow)
    (hx : x ∈ getNearbyUsersService d userStore lat lng radius limit) :
    (x.1 ∈ userStore ∧
      ∃ p, x.1.coordinates = some p ∧ x.2 = d p ⟨lat, lng⟩ ∧ x.2 ≤ radius) ∧
    List.Pairwise byDistance (getNearbyUsersService d userStore lat lng radius limit) ∧
    (getNearbyUsersService d userStore lat lng radius limit).length ≤ limit ∧
    (pl ∈ findNearbyPlacesService d placeStore lat lng radius ↔
      pl ∈ placeStore ∧ d pl.location ⟨lat, lng⟩ ≤ radius) := by
  refine ⟨mem_nearby_users hx, ?_, ?_, ?_⟩
  · exact List.Pairwise.sublist (List.take_sublist _ _)
      (List.sorted_insertionSort byDistance _)
  · exact List.length_take_le _ _
  · unfold findNearbyPlacesService
    rw [List.mem_filter, decide_eq_true_iff]

theorem claim1_witness :
    (demoUser 1, (0:ℚ)) ∈ getNearbyUsersService discreteDist [demoUser 1] 0 0 5 2 ∧
    (getNearbyUsersService discreteDist [demoUser 1] 0 0 5 2).length ≤ 2 :=
  ⟨by decide,
   (claim1_theorem discreteDist [demoUser 1] [nearPlace] 0 0 5 2 (demoUser 1, 0)
     nearPlace (by decide)).2.2.1⟩

/-- Claim C2 counterexample.  Creating a place with latitude 91 does not
fail with an InvalidCoordinate 400 before any store query: the service has
no validation at all, the INSERT is executed, the store rejects the
out-of-range geography, and the route answers 500. -/
theorem claim2_counterexample :
    (createPlace [] "Cafe" none (JsNum.num 91) (JsNum.num 31)).1 = true ∧
    (createPlace [] "Cafe" none (JsNum.num 91) (JsNum.num 31)).2.2.status = 500 ∧
    (createPlace [] "Cafe" none (JsNum.num 91) (JsNum.num 31)).2.2.status ≠ 400 := by
  exact ⟨rfl, rfl, by decide⟩

/-- Claim C2 (amended): the services perform no coordinate validation of
their own.  Place creation always executes its store statement, whatever the
coordinate values; when the store rejects the geography (out-of-range or
non-numeric WKT) the route answers 500 with `Failed to create place` and the
store is unchanged — never a 400 InvalidCoordinate.  A profile update with
exactly one coordinate present silently skips the coordinate write: the
service succeeds and the store is unchanged. -/
theorem claim2_theorem (pstore : List PlaceRow) (ustore : List UserRow)
    (name : String) (descr : Option String) (la ln : JsNum) (uid : Nat) (a : ℚ)
    (hbad : geographyFromPoint la ln = none) :
    (createPlaceService pstore name descr la ln).1 = true ∧
    (createPlace pstore name descr la ln).2.2 = ⟨500, "Failed to create place"⟩ ∧
    (createPlace pstore name descr la ln).2.1 = pstore ∧
    updateUserProfileService ustore uid (some a) none = Except.ok ustore ∧
    updateUserProfileService ustore uid none (some a) = Except.ok ustore := by
  refine ⟨rfl, ?_, ?_, rfl, rfl⟩ <;>
    simp [createPlace, createPlaceService, hbad]

theorem claim2_witness :
    geographyFromPoint (JsNum.num 91) (JsNum.num 31) = none ∧
    (createPlace [] "Cafe" none (JsNum.num 91) (JsNum.num 31)).2.2 =
      ⟨500, "Failed to create place"⟩ :=
  ⟨by decide,
   (claim2_theorem [] [] "Cafe" none (JsNum.num 91) (JsNum.num 31) 0 0 (by decide)).2.1⟩

/-- Claim C3 counterexample.  A POST /places body with a missing latitude
does not fail with MissingCoordinate mapped to 400: the INSERT is attempted
with the text `undefined` in the WKT, the store rejects the statement, and
the route answers 500 (nothing is stored). -/
theorem claim3_counterexample :
    (createPlace [] "Park" none JsNum.undef (JsNum.num 31)).2.2.status = 500 ∧
    (createPlace [] "Park" none JsNum.undef (JsNum.num 31)).2.2.status ≠ 400 ∧
    (createPlace [] "Park" none JsNum.undef (JsNum.num 31)).2.1 = [] := by
  exact ⟨rfl, by decide, rfl⟩

/-- Claim C3 (amended): place creation with a missing coordinate (latitude
or longitude absent) attempts the INSERT, the store rejects it, the route
answers 500 with `Failed to create place`, and no place is stored; a request
with a name and a full in-range coordinate answers 201 and appends exactly
one place holding that coordinate. -/
theorem claim3_theorem (store : List PlaceRow) (name : String)
    (descr : Option String) (other : JsNum) (la2 ln2 : ℚ)
    (hval : -90 ≤ la2 ∧ la2 ≤ 90 ∧ -180 ≤ ln2 ∧ ln2 ≤ 180) :
    (createPlace store name descr JsNum.undef other).2.2 =
      ⟨500, "Failed to create place"⟩ ∧
    (createPlace store name descr JsNum.undef other).2.1 = store ∧
    (createPlace store name descr other JsNum.undef).2.2 =
      ⟨500, "Failed to create place"⟩ ∧
    (createPlace store name descr other JsNum.undef).2.1 = store ∧
    (createPlace store name descr (JsNum.num la2) (JsNum.num ln2)).2.2.status = 201 ∧
    (createPlace store name descr (JsNum.num la2) (JsNum.num ln2)).2.1 =
      store ++ [{ id := store.length + 1, name := name, description := descr,
                  location := ⟨la2, ln2⟩ }] := by
  have hg : geographyFromPoint (JsNum.num la2) (JsNum.num ln2) = some ⟨la2, ln2⟩ := by
    show (if -90 ≤ la2 ∧ la2 ≤ 90 ∧ -180 ≤ ln2 ∧ ln2 ≤ 180
        then some (⟨la2, ln2⟩ : GeoPoint) else none) = some ⟨la2, ln2⟩
    rw [if_pos hval]
  refine ⟨?_, ?_, ?_, ?_, ?_, ?_⟩ <;>
    simp [createPlace, createPlaceService, geographyFromPoint_undef_left,
      geographyFromPoint_undef_right, hg]

theorem claim3_witness :
    ((-90:ℚ) ≤ 30 ∧ (30:ℚ) ≤ 90 ∧ (-180:ℚ) ≤ 31 ∧ (31:ℚ) ≤ 180) ∧
    (createPlace [] "Square" none (JsNum.num 30) (JsNum.num 31)).2.2.status = 201 :=
  ⟨by decide,
   (claim3_theorem [] "Square" none (JsNum.num 31) 30 31 (by decide)).2.2.2.2.1⟩

/-- Claim C4 counterexample.  The zero-iff-equal clause fails: latitude 90
with two different longitudes gives two valid, unequal coordinate pairs that
denote the same point of the Earth (the north pole), so their geodesic
distance is 0 although the pairs differ — on the ellipsoid of the engine
exactly as on this sphere. -/
theorem claim4_counterexample :
    validR ⟨90, 0⟩ ∧ validR ⟨90, 10⟩ ∧ (⟨90, 0⟩ : RPoint) ≠ ⟨90, 10⟩ ∧
    distanceBetween ⟨90, 0⟩ ⟨90, 10⟩ = 0 := by
  refine ⟨⟨by norm_num, by norm_num, by norm_num, by norm_num⟩,
    ⟨by norm_num, by norm_num, by norm_num, by norm_num⟩, ?_, ?_⟩
  · intro h
    have h10 : (0 : ℝ) = 10 := congrArg RPoint.lng h
    norm_num at h10
  · have h1 := pole_vec 0
    have h2 := pole_vec 10
    have hd : dot ⟨90, 0⟩ ⟨90, 10⟩ = 1 := by
      unfold dot
      rw [h1.1, h1.2.1, h1.2.2, h2.1, h2.2.1, h2.2.2]
      ring
    unfold distanceBetween
    rw [hd, Real.arccos_one, mul_zero]

/-- Claim C4 (amended): for all valid coordinate pairs the point-to-point
distance is symmetric, is zero whenever the two pairs are equal, and
satisfies the triangle inequality; it is however also zero for certain
unequal valid pairs (those denoting the same point of the Earth), so zero
does not imply equality of the pairs. -/
theorem claim4_theorem (a b c : RPoint)
    (ha : validR a) (hb : validR b) (hc : validR c) :
    distanceBetween a b = distanceBetween b a ∧
    (a = b → distanceBetween a b = 0) ∧
    distanceBetween a c ≤ distanceBetween a b + distanceBetween b c := by
  refine ⟨?_, ?_, ?_⟩
  · unfold distanceBetween
    rw [dot_comm]
  · intro h
    subst h
    unfold distanceBetween
    rw [dot_self, Real.arccos_one, mul_zero]
  · have h := arccos_dot_triangle a b c
    have hR : (0:ℝ) ≤ earthRadius := by unfold earthRadius; norm_num
    calc earthRadius * Real.arccos (dot a c)
        ≤ earthRadius * (Real.arccos (dot a b) + Real.arccos (dot b c)) :=
          mul_le_mul_of_nonneg_left h hR
      _ = earthRadius * Real.arccos (dot a b) + earthRadius * Real.arccos (dot b c) := by
          ring

theorem claim4_witness :
    validR ⟨0, 0⟩ ∧ distanceBetween ⟨0, 0⟩ ⟨0, 0⟩ = 0 := by
  have h : validR ⟨0, 0⟩ := ⟨by norm_num, by norm_num, by norm_num, by norm_num⟩
  exact ⟨h, (claim4_theorem ⟨0, 0⟩ ⟨0, 0⟩ ⟨0, 0⟩ h h h).2.1 rfl⟩

/-- Claim C5 counterexample.  The claim states the returned user count never
exceeds 100; with 101 stored users at the center and the limit parameter
101, the route returns all 101 — no maximum is enforced anywhere. -/
theorem claim5_counterexample :
    100 < countOf (getNearbyUsers discreteDist ((List.range 101).map demoUser)
      { lat := some 0, lng := some 0, radius := some 5, limit := some 101 }) := by
  decide

/-- Claim C5 (amended): GET /users/nearby defaults the limit to 50 and the
radius to 10000 when they are omitted, and never returns more users than the
supplied limit; but no maximum of 100 is enforced — the supplied limit is
passed to the query as is. -/
theorem claim5_theorem (d : GeoPoint → GeoPoint → ℚ) (store : List UserRow)
    (la ln r : ℚ) (lim : Nat) :
    getNearbyUsers d store { lat := some la, lng := some ln, radius := some r, limit := none } =
      getNearbyUsers d store { lat := some la, lng := some ln, radius := some r, limit := some 50 } ∧
    getNearbyUsers d store { lat := some la, lng := some ln, radius := none, limit := some lim } =
      getNearbyUsers d store { lat := some la, lng := some ln, radius := some 10000, limit := some lim } ∧
    countOf (getNearbyUsers d store { lat := some la, lng := some ln, radius := some r, limit := some lim }) ≤ lim := by
  refine ⟨rfl, rfl, ?_⟩
  show (getNearbyUsersService d store la ln r lim).length ≤ lim
  exact List.length_take_le _ _

/-- Claim C6 counterexample.  A radius-zero search is not empty when an
entity sits exactly at the center: `ST_DWithin` is non-strict, so the
distance-0 row passes the radius-0 filter and is returned. -/
theorem claim6_counterexample :
    getNearbyUsersService discreteDist [demoUser 1] 0 0 0 50 ≠ [] := by
  decide

/-- Claim C6 (amended): with a non-negative engine distance, a negative
radius yields an empty result for both the users and the places query (and
no error — the embedded queries are total); a radius-zero search returns
exactly the entities at distance zero from the center, so it is empty unless
an entity sits at the center itself. -/
theorem claim6_theorem (d : GeoPoint → GeoPoint → ℚ) (ustore : List UserRow)
    (pstore : List PlaceRow) (la ln radius : ℚ) (lim : Nat) (x : UserRow × ℚ)
    (hd : ∀ p q, 0 ≤ d p q) (hneg : radius < 0)
    (hx : x ∈ getNearbyUsersService d ustore la ln 0 lim) :
    getNearbyUsersService d ustore la ln radius lim = [] ∧
    findNearbyPlacesService d pstore la ln radius = [] ∧
    x.2 = 0 := by
  refine ⟨?_, ?_, ?_⟩
  · unfold getNearbyUsersService
    have hnil : (ustore.filterMap fun u =>
        match u.coordinates with
        | some p => if d p ⟨la, ln⟩ ≤ radius then some (u, d p ⟨la, ln⟩) else none
        | none => none) = [] := by
      rw [List.filterMap_eq_nil_iff]
      intro u hu
      cases hc : u.coordinates with
      | none => rfl
      | some p =>
        dsimp only
        rw [if_neg]
        intro hle
        exact absurd (lt_of_le_of_lt hle hneg) (not_lt.mpr (hd p ⟨la, ln⟩))
    rw [hnil]
    simp
  · unfold findNearbyPlacesService
    rw [List.filter_eq_nil_iff]
    intro p hp
    rw [decide_eq_true_iff]
    intro hle
    exact absurd (lt_of_le_of_lt hle hneg) (not_lt.mpr (hd p.location ⟨la, ln⟩))
  · obtain ⟨-, p, -, he, hle⟩ := mem_nearby_users hx
    exact le_antisymm hle (he ▸ hd p ⟨la, ln⟩)

theorem claim6_witness :
    getNearbyUsersService discreteDist [demoUser 1] 0 0 (-1) 50 = [] ∧
    findNearbyPlacesService discreteDist [nearPlace] 0 0 (-1) = [] ∧
    (demoUser 1, (0:ℚ)).2 = 0 :=
  claim6_theorem discreteDist [demoUser 1] [nearPlace] 0 0 (-1) 50 (demoUser 1, 0)
    (fun p q => by unfold discreteDist; split <;> decide) (by decide) (by decide)

/-- Claim C7: a stored user with no coordinate never appears in any
nearby-users result — the WHERE clause keeps only rows whose coordinate
column is non-NULL.  (A stored place always has a coordinate: the location
column of the place table is NOT NULL, so the claim is vacuous there.) -/
theorem claim7_theorem (d : GeoPoint → GeoPoint → ℚ) (store : List UserRow)
    (la ln radius : ℚ) (lim : Nat) (x : UserRow × ℚ)
    (hx : x ∈ getNearbyUsersService d store la ln radius lim) :
    x.1.coordinates ≠ none := by
  obtain ⟨-, p, hp, -, -⟩ := mem_nearby_users hx
  rw [hp]
  intro h
  cases h

theorem claim7_witness :
    (demoUser 1, (0:ℚ)) ∈ getNearbyUsersService discreteDist [demoUser 1] 0 0 5 50 ∧
    (demoUser 1, (0:ℚ)).1.coordinates ≠ none :=
  ⟨by decide,
   claim7_theorem discreteDist [demoUser 1] 0 0 5 50 (demoUser 1, 0) (by decide)⟩

/-- Claim C8 counterexample.  Removal is not idempotent: deleting an id with
no matching row makes `prisma.user.delete` reject (error P2025), and the
route answers 500 — removing a non-existent id is an error, not a no-op. -/
theorem claim8_counterexample :
    deleteUserService [] 1 = Except.error "P2025: record to delete does not exist" ∧
    (deleteUser [] 1).2.status = 500 ∧ (deleteUser [] 1).2.status ≠ 200 :=
  ⟨rfl, rfl, by decide⟩

/-- Claim C8 (amended): deleting an existing id succeeds and removes exactly
the rows carrying that id, keeping every other row; deleting a non-existent
id is rejected by the store (Prisma error P2025) and the route answers 500
with the store unchanged. -/
theorem claim8_theorem (store : List UserRow) (userId : Nat) :
    ((store.any fun u => decide (u.id = userId)) = true →
      deleteUserService store userId =
        Except.ok (store.filter fun u => decide (u.id ≠ userId)) ∧
      ∀ u, u ∈ store.filter (fun u => decide (u.id ≠ userId)) ↔
        u ∈ store ∧ u.id ≠ userId) ∧
    ((store.any fun u => decide (u.id = userId)) = false →
      deleteUserService store userId =
        Except.error "P2025: record to delete does not exist" ∧
      deleteUser store userId = (store, ⟨500, "Failed to delete user account"⟩)) := by
  constructor
  · intro h
    refine ⟨?_, ?_⟩
    · unfold deleteUserService
      rw [if_pos h]
    · intro u
      rw [List.mem_filter, decide_eq_true_iff]
  · intro h
    have he : deleteUserService store userId =
        Except.error "P2025: record to delete does not exist" := by
      unfold deleteUserService
      rw [if_neg (by rw [h]; intro hc; cases hc)]
    refine ⟨he, ?_⟩
    unfold deleteUser
    rw [he]

theorem claim8_witness :
    deleteUserService [demoUser 1] 1 =
      Except.ok (List.filter (fun u => decide (u.id ≠ 1)) [demoUser 1]) ∧
    deleteUser [] 2 = ([], ⟨500, "Failed to delete user account"⟩) :=
  ⟨((claim8_theorem [demoUser 1] 1).1 (by decide)).1,
   ((claim8_theorem [] 2).2 (by decide)).2⟩

/-- Claim C9: for a valid stat type the service runs the clamped UPDATE on
the rows with the given id, the affected counter becomes
`max 0 (old + increment)`, and starting from non-negative counters every
sequence of stat updates keeps all counters of all rows non-negative. -/
theorem claim9_theorem (store : List UserRow) (ops : List (Nat × String × Int))
    (uid : Nat) (t : String) (inc : Int)
    (ht : t ∈ validStats) (hnn : ∀ u ∈ store, nonnegStats u) :
    updateUserStatsService store uid t inc =
      Except.ok (store.map fun u => if u.id = uid then applyStat t inc u else u) ∧
    (∀ u : UserRow, statOf t (applyStat t inc u) = max 0 (statOf t u + inc)) ∧
    (∀ u ∈ runStatUpdates store ops, nonnegStats u) := by
  refine ⟨?_, ?_, nonneg_runStatUpdates ops store hnn⟩
  · unfold updateUserStatsService
    rw [if_pos ht]
  · intro u
    fin_cases ht <;> simp [statOf, applyStat]

theorem claim9_witness :
    ("storyCount" ∈ validStats) ∧
    statOf "storyCount" (applyStat "storyCount" (-5) (demoUser 1)) =
      max 0 (statOf "storyCount" (demoUser 1) + (-5)) :=
  ⟨by decide,
   (claim9_theorem [demoUser 1] [] 1 "storyCount" (-5) (by decide)
     (by simp [nonnegStats, demoUser])).2.1 (demoUser 1)⟩

/-- Claim C10: a failed login is observationally indistinguishable across its
two causes.  Whenever the login service rejects — because no user matches the
email/username, or because the password check fails — the route answers the
same 401 with the same body, for any two failing runs alike. -/
theorem claim10_theorem (cp1 cp2 : String → String → Bool)
    (s1 s2 : List UserRow) (e1 p1 e2 p2 : String)
    (he1 : ¬(e1 = "" ∨ p1 = "")) (he2 : ¬(e2 = "" ∨ p2 = ""))
    (h1 : isOkB (loginUserService cp1 s1 e1 p1) = false)
    (h2 : isOkB (loginUserService cp2 s2 e2 p2) = false) :
    loginUser cp1 s1 e1 p1 = ⟨401, "Invalid email/username or password"⟩ ∧
    loginUser cp1 s1 e1 p1 = loginUser cp2 s2 e2 p2 := by
  have m1 := login_error_msg cp1 s1 e1 p1 h1
  have m2 := login_error_msg cp2 s2 e2 p2 h2
  have r1 : loginUser cp1 s1 e1 p1 = ⟨401, "Invalid email/username or password"⟩ := by
    unfold loginUser
    rw [if_neg he1, m1]
    simp
  have r2 : loginUser cp2 s2 e2 p2 = ⟨401, "Invalid email/username or password"⟩ := by
    unfold loginUser
    rw [if_neg he2, m2]
    simp
  exact ⟨r1, r1.trans r2.symm⟩

theorem claim10_witness :
    loginUser (fun _ _ => false) [] "a@b" "pw" =
      ⟨401, "Invalid email/username or password"⟩ ∧
    loginUser (fun _ _ => false) [] "a@b" "pw" =
      loginUser (fun _ _ => false) [authUser] "a@b" "pw" :=
  claim10_theorem (fun _ _ => false) (fun _ _ => false) [] [authUser]
    "a@b" "pw" "a@b" "pw" (by decide) (by decide) (by decide) (by decide)

end GiggleMap
